import Mathlib

/-!
# example_client.c : a C node that answers `{ping, V}` with `{pong, V}`

Shallow embedding of `c_src/example_client.c`.  The program is a sequence of calls into
the erl_interface library; the embedding keeps that shape.  Every library call the program
makes is appended to a trace (`World.trace`), and the functions of the program
(`main`, `handle_emsg`, `handle_send`, `err_term`) are state-passing functions over `World`.

What the library returns is either computed by a small model of the documented behaviour
(`erl_format`, `erl_match`, `erl_var_content`) or supplied by the environment
(`World.xinit_rc`, `World.connect_rc`, `World.send_rc`, and the list of things the
successive `erl_xreceive_msg` calls deliver).
-/

namespace ExampleClient

/-! ## Terms -/

/-- The term representation of erl_interface (`ETERM`), restricted to the node kinds the
program can meet: atoms, integers, pids, binaries, the empty list, list cells, tuples and
the variables of `erl_format` patterns (a variable carries its binding once matched).
Variables occur only in terms built by `erl_format`; a term decoded from the connection has
none. -/
inductive ETERM where
  | atom (name : String)
  | integer (n : Int)
  | pid (node : String) (number serial creation : Nat)
  | binary (bytes : List Nat)
  | empty_list
  | list (head tail : ETERM)
  | tuple (elems : List ETERM)
  | variable (name : String) (value : Option ETERM)

/-- A value of C type `ETERM*` as the program holds it: `NULL`, or an owned reference
(`id` tells references apart, `term` is what it points to).  Every library call that hands
a term to the caller hands out a fresh `id`; the release functions take it back. -/
inductive ETERM_ptr where
  | NULL
  | ref (id : Nat) (term : ETERM)

/-- The term behind a pointer, if it is not `NULL`. -/
def ETERM_ptr.term? : ETERM_ptr → Option ETERM
  | .NULL => none
  | .ref _ t => some t

/-- Whether the pointer is the reference numbered `id`. -/
def ETERM_ptr.is_ref (p : ETERM_ptr) (id : Nat) : Bool :=
  match p with
  | .NULL => false
  | .ref i _ => i == id

/-- The `ErlMessage` of erl_interface: the fields the program reads. -/
structure ErlMessage where
  type : Int
  msg : ETERM_ptr
  to_ : ETERM_ptr
  from_ : ETERM_ptr

/-- The `state_t` of the program. -/
structure state_t where
  fd : Int

/-- The `BUFFER_SIZE` of the program. -/
def BUFFER_SIZE : Nat := 1000

/-! ## Constants of `ei.h` / `erl_interface.h` (the header is not part of the repository) -/

/-- Return value of `erl_xreceive_msg` for a failed receive. -/
def ERL_ERROR : Int := -1
/-- Return value of `erl_xreceive_msg` for a heartbeat. -/
def ERL_TICK : Int := 0
/-- Return value of `erl_xreceive_msg` when a message was delivered into `emsg`. -/
def ERL_MSG : Int := 1
/-- Message type: link. -/
def ERL_LINK : Int := 1
/-- Message type: send to a pid. -/
def ERL_SEND : Int := 2
/-- Message type: exit. -/
def ERL_EXIT : Int := 3
/-- Message type: unlink. -/
def ERL_UNLINK : Int := 4
/-- Message type: send to a registered name. -/
def ERL_REG_SEND : Int := 6

/-! ## The world: trace of library calls and what the environment answers -/

/-- One call into libc or erl_interface, with the arguments (and, for the calls that hand
out a term, the result) that matter to the properties below. -/
inductive Call where
  | printf (text : String)
  | fflush_stdout
  | erl_init
  | erl_connect_xinit (hostname sname full_name cookie : String)
  | erl_connect (node : String)
  | erl_err_quit (text : String)
  | erl_xreceive_msg (fd : Int) (rc : Int) (delivered : List ETERM_ptr)
  | erl_format (fmt : String) (result : ETERM_ptr)
  | erl_mk_atom (name : String) (result : ETERM_ptr)
  | erl_match (pattern term : ETERM_ptr) (matched : Bool)
  | erl_var_content (name : String) (result : ETERM_ptr)
  | erl_send (fd : Int) (to_ msg : ETERM_ptr)
  | erl_free_term (p : ETERM_ptr)
  | erl_free_compound (p : ETERM_ptr)
  | erl_eterm_release

/-- State of the process and of its environment.
* `trace`: the library calls made so far, oldest first;
* `next`: the identity the next handed-out term reference gets;
* `xinit_rc`, `connect_rc`: what `erl_connect_xinit` and `erl_connect` return;
* `send_rc k`: what the `k`-th call of `erl_send` returns. -/
structure World where
  trace : List Call
  next : Nat
  xinit_rc : Int
  connect_rc : Int
  send_rc : Nat → Int

/-- Append a call to the trace. -/
def World.log (w : World) (c : Call) : World :=
  { w with trace := w.trace ++ [c] }

/-- Hand out a fresh reference to `t` (the caller records the call that produced it). -/
def World.fresh (w : World) (t : ETERM) : ETERM_ptr × World :=
  (.ref w.next t, { w with next := w.next + 1 })

/-- What one call of `erl_xreceive_msg` finds on the connection: a heartbeat, a failure, or a
message of some type with its three terms (a term the message type does not carry is
absent). -/
inductive Received where
  | tick
  | error
  | msg (type : Int) (msg to_ from_ : Option ETERM)

/-! ## Model of the erl_interface calls -/

/-- Characters of an atom or variable name after its first character. -/
def is_name_char (c : Char) : Bool :=
  c.isAlphanum || c == '_' || c == '@'

/-- Drop leading blanks. -/
def skip_blanks : List Char → List Char
  | [] => []
  | c :: cs => if c == ' ' || c == '\t' || c == '\n' then skip_blanks cs else c :: cs

/-- Value of a run of decimal digits. -/
def digits_value (cs : List Char) : Nat :=
  cs.foldl (fun acc c => 10 * acc + (c.toNat - '0'.toNat)) 0

mutual
/-- Parser behind `erl_format` for the part of the format language the program uses: atoms,
variables (names starting with a capital or an underscore), unsigned integers, tuples, and
the directive `~w`, which inserts the next argument term.  Returns the term built, the rest
of the input and the arguments not yet consumed; `none` when the input is not in this
fragment or an argument is missing or `NULL`. -/
def pformat : Nat → List Char → List ETERM_ptr → Option (ETERM × List Char × List ETERM_ptr)
  | 0, _, _ => none
  | fuel + 1, cs, args =>
    match skip_blanks cs with
    | [] => none
    | '\x7b' :: rest =>
      match skip_blanks rest with
      | '\x7d' :: rest2 => some (.tuple [], rest2, args)
      | _ =>
        match pformat_seq fuel rest args with
        | some (elems, rest2, args2) => some (.tuple elems, rest2, args2)
        | none => none
    | '~' :: 'w' :: rest =>
      match args with
      | .ref _ t :: args2 => some (t, rest, args2)
      | _ => none
    | c :: rest =>
      if c.isLower then
        some (.atom (String.mk (c :: rest.takeWhile is_name_char)), rest.dropWhile is_name_char, args)
      else if c.isUpper || c == '_' then
        some (.variable (String.mk (c :: rest.takeWhile is_name_char)) none,
          rest.dropWhile is_name_char, args)
      else if c.isDigit then
        some (.integer (digits_value (c :: rest.takeWhile Char.isDigit)),
          rest.dropWhile Char.isDigit, args)
      else none
/-- Elements of a tuple, separated by commas, up to and including the closing brace. -/
def pformat_seq : Nat → List Char → List ETERM_ptr →
    Option (List ETERM × List Char × List ETERM_ptr)
  | 0, _, _ => none
  | fuel + 1, cs, args =>
    match pformat fuel cs args with
    | none => none
    | some (t, rest, args2) =>
      match skip_blanks rest with
      | '\x7d' :: rest2 => some ([t], rest2, args2)
      | ',' :: rest2 =>
        match pformat_seq fuel rest2 args2 with
        | some (ts, rest3, args3) => some (t :: ts, rest3, args3)
        | none => none
      | _ => none
end

/-- The term a format string denotes: the whole string must be one term. -/
def parse_format (fmt : String) (args : List ETERM_ptr) : Option ETERM :=
  match pformat (fmt.length + 1) fmt.toList args with
  | some (t, rest, _) => if skip_blanks rest == [] then some t else none
  | none => none

/-- Call `erl_format(fmt, ...)`: builds the term the format describes and hands out a reference to
it; `NULL` when the format cannot be read. -/
def erl_format (fmt : String) (args : List ETERM_ptr) (w : World) : ETERM_ptr × World :=
  match parse_format fmt args with
  | some t =>
    let (p, w1) := w.fresh t
    (p, w1.log (.erl_format fmt p))
  | none => (.NULL, w.log (.erl_format fmt .NULL))

/-- Call `erl_mk_atom(name)`: hands out a reference to a new atom. -/
def erl_mk_atom (name : String) (w : World) : ETERM_ptr × World :=
  let (p, w1) := w.fresh (.atom name)
  (p, w1.log (.erl_mk_atom name p))

mutual
/-- Structural equality of terms. -/
def ETERM.same : ETERM → ETERM → Bool
  | .atom a, .atom b => a == b
  | .integer a, .integer b => a == b
  | .pid n a b c, .pid n2 a2 b2 c2 => n == n2 && a == a2 && b == b2 && c == c2
  | .binary a, .binary b => a == b
  | .empty_list, .empty_list => true
  | .list h t, .list h2 t2 => ETERM.same h h2 && ETERM.same t t2
  | .tuple xs, .tuple ys => ETERM.same_list xs ys
  | .variable a none, .variable b none => a == b
  | .variable a (some x), .variable b (some y) => a == b && ETERM.same x y
  | _, _ => false
/-- Structural equality of term sequences. -/
def ETERM.same_list : List ETERM → List ETERM → Bool
  | [], [] => true
  | x :: xs, y :: ys => ETERM.same x y && ETERM.same_list xs ys
  | _, _ => false
end

/-- Variable bindings collected during one match. -/
abbrev Bindings := List (String × ETERM)

mutual
/-- Matcher behind `erl_match`: `ematch p t b` matches the term `t` (which is expected to be
free of variables, as every term decoded from the connection is) against the pattern `p`
under the bindings `b`.  On success it returns the pattern with its variables bound and the
extended bindings.  The variable `_` matches anything and is not bound; a variable that
already has a binding matches only a term equal to it. -/
def ematch : ETERM → ETERM → Bindings → Option (ETERM × Bindings)
  | .atom a, t, b =>
    match t with
    | .atom a2 => if a == a2 then some (.atom a, b) else none
    | _ => none
  | .integer n, t, b =>
    match t with
    | .integer n2 => if n == n2 then some (.integer n, b) else none
    | _ => none
  | .pid n x y z, t, b =>
    if ETERM.same (.pid n x y z) t then some (.pid n x y z, b) else none
  | .binary bs, t, b =>
    if ETERM.same (.binary bs) t then some (.binary bs, b) else none
  | .empty_list, t, b =>
    match t with
    | .empty_list => some (.empty_list, b)
    | _ => none
  | .list h tl, t, b =>
    match t with
    | .list h2 tl2 =>
      match ematch h h2 b with
      | none => none
      | some (h3, b2) =>
        match ematch tl tl2 b2 with
        | none => none
        | some (tl3, b3) => some (.list h3 tl3, b3)
    | _ => none
  | .tuple ps, t, b =>
    match t with
    | .tuple ts =>
      match ematch_list ps ts b with
      | none => none
      | some (ps2, b2) => some (.tuple ps2, b2)
    | _ => none
  | .variable name value, t, b =>
    if name == "_" then some (.variable name value, b)
    else
      match b.lookup name with
      | some v => if ETERM.same v t then some (.variable name (some v), b) else none
      | none =>
        match value with
        | some v => if ETERM.same v t then some (.variable name (some v), (name, v) :: b) else none
        | none => some (.variable name (some t), (name, t) :: b)
/-- Element-wise matching of two sequences of the same length. -/
def ematch_list : List ETERM → List ETERM → Bindings → Option (List ETERM × Bindings)
  | [], [], b => some ([], b)
  | p :: ps, t :: ts, b =>
    match ematch p t b with
    | none => none
    | some (p2, b2) =>
      match ematch_list ps ts b2 with
      | none => none
      | some (ps2, b3) => some (p2 :: ps2, b3)
  | _, _, _ => none
end

/-- Call `erl_match(pattern, term)`: non-zero (here `true`) when `term` matches `pattern`; the
variables of `pattern` are then bound in place, which the embedding renders by returning the
pattern as it is after the call.  Two `NULL`s match, one `NULL` matches nothing. -/
def erl_match (pattern term : ETERM_ptr) (w : World) : Bool × ETERM_ptr × World :=
  match pattern, term with
  | .ref i p, .ref _ t =>
    match ematch p t [] with
    | some (p2, _) => (true, .ref i p2, w.log (.erl_match pattern term true))
    | none => (false, pattern, w.log (.erl_match pattern term false))
  | .NULL, .NULL => (true, pattern, w.log (.erl_match pattern term true))
  | _, _ => (false, pattern, w.log (.erl_match pattern term false))

mutual
/-- Value bound to the first variable called `name` in a term, if there is one. -/
def var_content : ETERM → String → Option ETERM
  | .variable n v, name => if n == name then v else none
  | .tuple es, name => var_content_list es name
  | .list h t, name =>
    match var_content h name with
    | some v => some v
    | none => var_content t name
  | _, _ => none
/-- Same, over a sequence of terms. -/
def var_content_list : List ETERM → String → Option ETERM
  | [], _ => none
  | e :: es, name =>
    match var_content e name with
    | some v => some v
    | none => var_content_list es name
end

/-- Call `erl_var_content(term, name)`: hands out a reference to the value of the variable `name`
in `term`; `NULL` when there is no such variable or it is unbound. -/
def erl_var_content (term : ETERM_ptr) (name : String) (w : World) : ETERM_ptr × World :=
  match term with
  | .ref _ t =>
    match var_content t name with
    | some v =>
      let (p, w1) := w.fresh v
      (p, w1.log (.erl_var_content name p))
    | none => (.NULL, w.log (.erl_var_content name .NULL))
  | .NULL => (.NULL, w.log (.erl_var_content name .NULL))

/-- Number of `erl_send` calls in a trace. -/
def sends_so_far (tr : List Call) : Nat :=
  (tr.filter (fun c => match c with | .erl_send _ _ _ => true | _ => false)).length

/-- Call `erl_send(fd, to, msg)`: the call is recorded; its result comes from the environment. -/
def erl_send (fd : Int) (to_ msg : ETERM_ptr) (w : World) : Int × World :=
  (w.send_rc (sends_so_far w.trace), w.log (.erl_send fd to_ msg))

/-- Call `erl_free_term(p)`: gives the reference `p` back. -/
def erl_free_term (p : ETERM_ptr) (w : World) : World :=
  w.log (.erl_free_term p)

/-- Call `erl_free_compound(p)`: gives the reference `p` back. -/
def erl_free_compound (p : ETERM_ptr) (w : World) : World :=
  w.log (.erl_free_compound p)

/-- Call `erl_eterm_release()`. -/
def erl_eterm_release (w : World) : World :=
  w.log .erl_eterm_release

/-- Hand out a reference for a term that came with a message; an absent term is `NULL`. -/
def deliver (t : Option ETERM) (w : World) : ETERM_ptr × World :=
  match t with
  | some t => w.fresh t
  | none => (.NULL, w)

/-- Call `erl_xreceive_msg(fd, &buf, &size, &emsg)`: returns `ERL_TICK`, `ERL_ERROR` or `ERL_MSG`
according to what arrived; only in the last case is `emsg` overwritten, with the message
type and fresh references to its terms. -/
def erl_xreceive_msg (fd : Int) (r : Received) (emsg : ErlMessage) (w : World) :
    Int × ErlMessage × World :=
  match r with
  | .tick => (ERL_TICK, emsg, w.log (.erl_xreceive_msg fd ERL_TICK []))
  | .error => (ERL_ERROR, emsg, w.log (.erl_xreceive_msg fd ERL_ERROR []))
  | .msg type m t f =>
    let (pm, w1) := deliver m w
    let (pt, w2) := deliver t w1
    let (pf, w3) := deliver f w2
    (ERL_MSG, { type := type, msg := pm, to_ := pt, from_ := pf },
      w3.log (.erl_xreceive_msg fd ERL_MSG [pm, pt, pf]))

/-- Call `printf` with the text it prints, already formatted. -/
def printf (text : String) (w : World) : World :=
  w.log (.printf text)

/-- Call `fflush(stdout)`. -/
def fflush_stdout (w : World) : World :=
  w.log .fflush_stdout

/-- Call `erl_init(NULL, 0)`. -/
def erl_init (w : World) : World :=
  w.log .erl_init

/-- Call `erl_connect_xinit(hostname, sname, full_name, &addr, cookie, 0)`: the result comes from
the environment. -/
def erl_connect_xinit (hostname sname full_name cookie : String) (w : World) : Int × World :=
  (w.xinit_rc, w.log (.erl_connect_xinit hostname sname full_name cookie))

/-- Call `erl_connect(node)`: the result (a descriptor, or a negative number) comes from the
environment. -/
def erl_connect (node : String) (w : World) : Int × World :=
  (w.connect_rc, w.log (.erl_connect node))

/-- Call `erl_err_quit(text)`: reports and ends the process; nothing runs after it. -/
def erl_err_quit (text : String) (w : World) : World :=
  w.log (.erl_err_quit text)

/-! ## The program -/

/-- Function `err_term` (lines 160-164). -/
def err_term (error_atom : String) (w : World) : ETERM_ptr × World :=
  let (a, w1) := erl_mk_atom error_atom w
  erl_format "\x7berror, ~w\x7d" [a] w1

/-- Function `handle_send` (lines 127-158).  The `else` branch of the source returns from the function,
so the statements after the `if` belong to the matched branch only. -/
def handle_send (state : state_t) (emsg : ErlMessage) (w : World) : World :=
  let (msg_pattern, w1) := erl_format "\x7bping, Term\x7d" [] w
  let (matched, msg_pattern2, w2) := erl_match msg_pattern emsg.msg w1
  if matched then
    let (term, w3) := erl_var_content msg_pattern2 "Term" w2
    let (response, w4) := erl_format "\x7bpong, ~w\x7d" [term] w3
    -- free allocated resources
    let w5 := erl_free_term term w4
    -- send response
    let (_, w6) := erl_send state.fd emsg.from_ response w5
    -- free allocated resources
    let w7 := erl_free_compound response w6
    let w8 := erl_free_term msg_pattern2 w7
    -- free the free-list
    erl_eterm_release w8
  else
    let (_, w3) := err_term "unknown_call" w2
    w3

/-- The `switch` of `handle_emsg` (lines 108-119). -/
def dispatch (state : state_t) (emsg : ErlMessage) (w : World) : World :=
  if emsg.type == ERL_REG_SEND || emsg.type == ERL_SEND then handle_send state emsg w
  else if emsg.type == ERL_LINK || emsg.type == ERL_UNLINK then w
  else if emsg.type == ERL_EXIT then w
  else w

/-- Function `handle_emsg` (lines 105-125). -/
def handle_emsg (state : state_t) (emsg : ErlMessage) (w : World) : World :=
  let w1 := dispatch state emsg w
  -- its our responsibility to free these pointers
  let w2 := erl_free_compound emsg.msg w1
  let w3 := erl_free_compound emsg.to_ w2
  erl_free_compound emsg.from_ w3

/-- One iteration of the `while (looping)` loop of `main` (lines 79-100), `r` being what the
receive finds.  Returns the new value of `looping`, the message buffer and the world. -/
def loop_body (state : state_t) (emsg : ErlMessage) (r : Received) (w : World) :
    Bool × ErlMessage × World :=
  let (rc, emsg1, w1) := erl_xreceive_msg state.fd r emsg w
  if rc == ERL_TICK then (true, emsg1, w1)
  else if rc == ERL_ERROR then (false, emsg1, w1)
  else (true, emsg1, handle_emsg state emsg1 w1)

/-- The `while (looping)` loop of `main` (lines 77-101) run against the list `inbox` of what
the successive receives find.  It stops when `looping` is false; when `inbox` is used up the
process is waiting inside `erl_xreceive_msg`.  Returns the value of `looping`, the message
buffer, the part of `inbox` never received, and the world. -/
def receive_loop (state : state_t) :
    Bool → ErlMessage → List Received → World → Bool × ErlMessage × List Received × World
  | false, emsg, inbox, w => (false, emsg, inbox, w)
  | true, emsg, [], w => (true, emsg, [], w)
  | true, emsg, r :: inbox, w =>
    match loop_body state emsg r w with
    | (looping, emsg1, w1) => receive_loop state looping emsg1 inbox w1

/-- How the process stands at the end of a run. -/
inductive Outcome where
  | returned (status : Int)
  | quit
  | waiting
  deriving DecidableEq, Repr

/-- The usage text of `main` (lines 30-36). -/
def usage (w : World) : World :=
  let w1 := printf "\n" w
  let w2 := printf "Usage: ./priv/example_client <sname> <hostname> <cookie> <tname>\n\n" w1
  let w3 := printf "    sname      the short name you want this c-node to connect as\n" w2
  let w4 := printf "    hostname   the hostname\n" w3
  let w5 := printf "    cookie     the authentication cookie\n" w4
  let w6 := printf "    tname      the target node short name to connect to\n" w5
  printf "\n" w6

/-- The `ErlMessage emsg` of `main` before the first receive has filled it. -/
def emsg_unset : ErlMessage :=
  { type := 0, msg := .NULL, to_ := .NULL, from_ := .NULL }

/-- Function `main` (lines 28-103) for the argument vector `argv` (the program name included, so
`argc` is its length), against the list `inbox` of what the receives find.  Returns how the
process ended, the part of `inbox` never received, and the world.  Reaching the closing brace
of `main` is a return of status 0.  The two `malloc` calls (for `state` and the receive
buffer) are taken to succeed and leave no call in the trace; the buffer and `addr` are only
passed on to the library. -/
def main (argv : List String) (inbox : List Received) (w : World) :
    Outcome × List Received × World :=
  if argv.length != 5 || argv.getD 1 "" == "-h" || argv.getD 1 "" == "--help" then
    (.returned 0, inbox, usage w)
  else
    let sname := argv.getD 1 ""
    let hostname := argv.getD 2 ""
    let cookie := argv.getD 3 ""
    let tname := argv.getD 4 ""
    let full_name := sname ++ "@" ++ hostname
    let target_node := tname ++ "@" ++ hostname
    -- set up all of Erl_Interface
    let w1 := erl_init w
    -- set up this node
    let w2 := fflush_stdout (printf ("initialising " ++ full_name ++ "\n") w1)
    let (rc, w3) := erl_connect_xinit hostname sname full_name cookie w2
    if rc == -1 then (.quit, inbox, erl_err_quit "error erl_connect_init" w3)
    else
      -- connect to target node
      let w4 := fflush_stdout (printf ("connecting to " ++ target_node ++ "\n") w3)
      let (fd, w5) := erl_connect target_node w4
      let state : state_t := { fd := fd }
      if fd < 0 then (.quit, inbox, erl_err_quit "error erl_connect" w5)
      else
        -- signal on stdout to cnode helper that we are ready
        let w6 := fflush_stdout (printf (full_name ++ " ready\n") w5)
        match receive_loop state true emsg_unset inbox w6 with
        | (true, _, rest, w7) => (.waiting, rest, w7)
        | (false, _, rest, w7) => (.returned 0, rest, w7)

/-! ## Observations on a trace -/

/-- One write on a connection: the descriptor, the destination term, the term sent. -/
structure Write where
  fd : Int
  to_ : Option ETERM
  term : Option ETERM

/-- The write a call performs, if it is an `erl_send`. -/
def Call.write? : Call → Option Write
  | .erl_send fd to_ msg => some { fd := fd, to_ := to_.term?, term := msg.term? }
  | _ => none

/-- The writes of a trace, in order. -/
def writes (tr : List Call) : List Write :=
  tr.filterMap Call.write?

/-- The text a call puts on standard output, if it is a `printf`. -/
def Call.text? : Call → Option String
  | .printf s => some s
  | _ => none

/-- What a trace prints on standard output, one entry per `printf`. -/
def stdout (tr : List Call) : List String :=
  tr.filterMap Call.text?

/-- Whether a call is a receive. -/
def Call.is_receive : Call → Bool
  | .erl_xreceive_msg _ _ _ => true
  | _ => false

/-- Whether a call releases the reference `id` (`erl_free_term` or `erl_free_compound`). -/
def Call.releases (id : Nat) : Call → Bool
  | .erl_free_term p => p.is_ref id
  | .erl_free_compound p => p.is_ref id
  | _ => false

/-- How many times a trace releases the reference `id`. -/
def release_count (id : Nat) (tr : List Call) : Nat :=
  (tr.filter (Call.releases id)).length

/-- One for a reference, nothing for `NULL`. -/
def ETERM_ptr.weight : ETERM_ptr → Int
  | .NULL => 0
  | .ref _ _ => 1

/-- Effect of a call on the allocation counter: plus one for every reference handed out
(`erl_format`, `erl_mk_atom`, `erl_var_content`, each term delivered with an event), minus one
for every reference released. -/
def Call.delta : Call → Int
  | .erl_format _ p => p.weight
  | .erl_mk_atom _ p => p.weight
  | .erl_var_content _ p => p.weight
  | .erl_xreceive_msg _ _ ps => (ps.map ETERM_ptr.weight).sum
  | .erl_free_term p => - p.weight
  | .erl_free_compound p => - p.weight
  | _ => 0

/-- The allocation counter after a trace. -/
def allocation_counter (tr : List Call) : Int :=
  (tr.map Call.delta).sum


/-- The pattern `erl_format("{ping, Term}")` builds. -/
def ping_pattern : ETERM := .tuple [.atom "ping", .variable "Term" none]

/-- The pattern after a successful match against `{ping, V}`. -/
def ping_bound (V : ETERM) : ETERM := .tuple [.atom "ping", .variable "Term" (some V)]

/-- The value `V` of a payload of the shape `{ping, V}`; `none` for any other payload. -/
def ping_value : ETERM → Option ETERM
  | .tuple [.atom name, V] => if name = "ping" then some V else none
  | _ => none

/-- The calls `handle_send` makes for a payload `{ping, V}`, the first reference it is handed
being number `n`. -/
def ping_calls (fd : Int) (emsg : ErlMessage) (n : Nat) (V : ETERM) : List Call :=
  [ .erl_format "\x7bping, Term\x7d" (.ref n ping_pattern),
    .erl_match (.ref n ping_pattern) emsg.msg true,
    .erl_var_content "Term" (.ref (n + 1) V),
    .erl_format "\x7bpong, ~w\x7d" (.ref (n + 2) (.tuple [.atom "pong", V])),
    .erl_free_term (.ref (n + 1) V),
    .erl_send fd emsg.from_ (.ref (n + 2) (.tuple [.atom "pong", V])),
    .erl_free_compound (.ref (n + 2) (.tuple [.atom "pong", V])),
    .erl_free_term (.ref n (ping_bound V)),
    .erl_eterm_release ]

/-- The calls `handle_send` makes for any other payload. -/
def other_calls (emsg : ErlMessage) (n : Nat) : List Call :=
  [ .erl_format "\x7bping, Term\x7d" (.ref n ping_pattern),
    .erl_match (.ref n ping_pattern) emsg.msg false,
    .erl_mk_atom "unknown_call" (.ref (n + 1) (.atom "unknown_call")),
    .erl_format "\x7berror, ~w\x7d"
      (.ref (n + 2) (.tuple [.atom "error", .atom "unknown_call"])) ]

/-- Whether a call is an `erl_send`. -/
def Call.is_send : Call → Bool
  | .erl_send _ _ _ => true
  | _ => false

/-- The `erl_send` calls of a trace, in order: the writes on the connection, with the
pointers that were passed. -/
def sends (tr : List Call) : List Call :=
  tr.filter Call.is_send

/-- Whether what a receive finds is a failure. -/
def Received.is_error : Received → Bool
  | .error => true
  | _ => false

/-- The write one inbound event calls for, in the words of the specification: a message
(`ERL_SEND` or `ERL_REG_SEND`) whose payload is `{ping, V}` is answered by `{pong, V}` to its
sender on the connection `fd`; nothing else is answered. -/
def reply_to (fd : Int) : Received → List Write
  | .msg type (some payload) _ sender =>
    if type = ERL_SEND ∨ type = ERL_REG_SEND then
      match ping_value payload with
      | some V => [{ fd := fd, to_ := sender, term := some (.tuple [.atom "pong", V]) }]
      | none => []
    else []
  | _ => []

/-- The writes a sequence of inbound events calls for, in the words of the specification: the
replies to the events before the first failed receive, in order. -/
def expected_writes (fd : Int) : List Received → List Write
  | [] => []
  | .error :: _ => []
  | r :: rest => reply_to fd r ++ expected_writes fd rest

/-- The calls `handle_send` makes, the first reference it is handed being number `n`. -/
def send_calls (fd : Int) (emsg : ErlMessage) (n : Nat) : List Call :=
  match emsg.msg.term?.bind ping_value with
  | some V => ping_calls fd emsg n V
  | none => other_calls emsg n

/-- Whether `handle_emsg` passes a message of this type to `handle_send`. -/
def is_send_type (type : Int) : Bool :=
  type == ERL_REG_SEND || type == ERL_SEND

/-- The calls the `switch` of `handle_emsg` makes. -/
def dispatch_calls (fd : Int) (emsg : ErlMessage) (n : Nat) : List Call :=
  if is_send_type emsg.type then send_calls fd emsg n else []

/-- A world to try things on: nothing has happened yet, registration and connect succeed
(descriptor 3), every send reports success. -/
def sample_world : World :=
  { trace := [], next := 3, xinit_rc := 1, connect_rc := 3, send_rc := fun _ => 1 }

/-- A message `{ping, 42}` sent to the registered name of the node by the pid `<b@host.1.0>`,
as `erl_xreceive_msg` delivers it. -/
def sample_ping : ErlMessage :=
  { type := ERL_REG_SEND,
    msg := .ref 0 (.tuple [.atom "ping", .integer 42]),
    to_ := .ref 1 (.atom "srv"),
    from_ := .ref 2 (.pid "b@host" 1 0 0) }

/-- A message `{pong, 1}` (wrong tag) from the same sender. -/
def sample_pong : ErlMessage :=
  { type := ERL_REG_SEND,
    msg := .ref 0 (.tuple [.atom "pong", .integer 1]),
    to_ := .ref 1 (.atom "srv"),
    from_ := .ref 2 (.pid "b@host" 1 0 0) }

/-- The calls `main` makes from `erl_init` to the ready line when registration and connect
succeed. -/
def startup_calls (sname hostname cookie tname : String) : List Call :=
  [ .erl_init,
    .printf ("initialising " ++ (sname ++ "@" ++ hostname) ++ "\n"),
    .fflush_stdout,
    .erl_connect_xinit hostname sname (sname ++ "@" ++ hostname) cookie,
    .printf ("connecting to " ++ (tname ++ "@" ++ hostname) ++ "\n"),
    .fflush_stdout,
    .erl_connect (tname ++ "@" ++ hostname),
    .printf ((sname ++ "@" ++ hostname) ++ " ready\n"),
    .fflush_stdout ]

/-- How `main` ends after its receive loop. -/
def after_loop : Bool × ErlMessage × List Received × World → Outcome × List Received × World
  | (true, _, rest, w) => (.waiting, rest, w)
  | (false, _, rest, w) => (.returned 0, rest, w)

/-- The identity of the reference behind a pointer (none for `NULL`). -/
def ETERM_ptr.ids : ETERM_ptr → List Nat
  | .NULL => []
  | .ref i _ => [i]

/-- The identities of the term references an event owns: payload, recipient, sender. -/
def ErlMessage.owned (emsg : ErlMessage) : List Nat :=
  emsg.msg.ids ++ emsg.to_.ids ++ emsg.from_.ids

/-- What handling one event adds to the allocation counter in the program as it is: three
(the pattern, the atom `unknown_call` and the error reply) for a message that reaches
`handle_send` with a payload other than `{ping, V}`, nothing otherwise. -/
def left_over : Received → Int
  | .msg type payload _ _ =>
    if is_send_type type then
      match payload.bind ping_value with
      | some _ => 0
      | none => 3
    else 0
  | _ => 0

/-- The usage text, one entry per `printf` of lines 30-36. -/
def usage_text : List String :=
  [ "\n",
    "Usage: ./priv/example_client <sname> <hostname> <cookie> <tname>\n\n",
    "    sname      the short name you want this c-node to connect as\n",
    "    hostname   the hostname\n",
    "    cookie     the authentication cookie\n",
    "    tname      the target node short name to connect to\n",
    "\n" ]

/-- The sample world, except that the connect is refused (as with a wrong cookie). -/
def sample_world_refused : World :=
  { sample_world with connect_rc := -1 }

/-! ## Lemmas -/

theorem parse_format_ping : parse_format "\x7bping, Term\x7d" [] = some ping_pattern := rfl

theorem parse_format_pong (k : Nat) (V : ETERM) :
    parse_format "\x7bpong, ~w\x7d" [.ref k V] = some (.tuple [.atom "pong", V]) := rfl

theorem parse_format_error (k : Nat) (V : ETERM) :
    parse_format "\x7berror, ~w\x7d" [.ref k V] = some (.tuple [.atom "error", V]) := rfl

theorem ping_value_eq_some (t V : ETERM) :
    ping_value t = some V ↔ t = .tuple [.atom "ping", V] := by
  constructor
  · intro h
    unfold ping_value at h
    split at h
    · split at h
      · simp_all
      · simp at h
    · simp at h
  · rintro rfl
    simp [ping_value]

theorem ematch_ping (t : ETERM) :
    ematch ping_pattern t [] =
      (ping_value t).map (fun V => (ping_bound V, [("Term", V)])) := by
  cases t with
  | tuple es =>
    match es with
    | [] => simp [ping_pattern, ematch, ematch_list, ping_value]
    | [a] =>
      cases a <;> simp [ping_pattern, ematch, ematch_list, ping_value]
      rename_i name
      by_cases h : "ping" = name <;> simp [h]
    | [a, b] =>
      cases a <;> simp [ping_pattern, ping_bound, ematch, ematch_list, ping_value]
      rename_i name
      by_cases h : name = "ping"
      · subst h; simp
      · have h2 : ¬ "ping" = name := fun e => h e.symm
        simp [h, h2]
    | a :: b :: c :: rest =>
      cases a <;> simp [ping_pattern, ematch, ematch_list, ping_value]
      rename_i name
      by_cases h : "ping" = name <;> simp [h]
  | _ => simp [ping_pattern, ematch, ping_value]


theorem handle_send_ping (state : state_t) (emsg : ErlMessage) (w : World) (i : Nat)
    (V : ETERM) (h : emsg.msg = .ref i (.tuple [.atom "ping", V])) :
    handle_send state emsg w =
      { w with next := w.next + 3,
               trace := w.trace ++ ping_calls state.fd emsg w.next V } := by
  have hv : ping_value (.tuple [.atom "ping", V]) = some V := by simp [ping_value]
  simp [handle_send, erl_format, parse_format_ping, World.fresh, World.log, erl_match, h,
    ematch_ping, hv, erl_var_content, ping_bound, var_content, var_content_list,
    parse_format_pong, erl_free_term, erl_send, erl_free_compound, erl_eterm_release,
    ping_calls]

theorem handle_send_other (state : state_t) (emsg : ErlMessage) (w : World)
    (h : ∀ i t, emsg.msg = .ref i t → ping_value t = none) :
    handle_send state emsg w =
      { w with next := w.next + 3, trace := w.trace ++ other_calls emsg w.next } := by
  cases hm : emsg.msg with
  | NULL =>
    simp [handle_send, erl_format, parse_format_ping, World.fresh, World.log, erl_match, hm,
      err_term, erl_mk_atom, parse_format_error, other_calls]
  | ref i t =>
    have hv := h i t hm
    simp [handle_send, erl_format, parse_format_ping, World.fresh, World.log, erl_match, hm,
      ematch_ping, hv, err_term, erl_mk_atom, parse_format_error, other_calls]


@[simp]
theorem term_ref (i : Nat) (t : ETERM) : (ETERM_ptr.ref i t).term? = some t := rfl

@[simp]
theorem term_NULL : ETERM_ptr.NULL.term? = none := rfl

theorem sends_append (a b : List Call) : sends (a ++ b) = sends a ++ sends b := by
  simp [sends]

theorem writes_append (a b : List Call) : writes (a ++ b) = writes a ++ writes b := by
  simp [writes]

theorem stdout_append (a b : List Call) : stdout (a ++ b) = stdout a ++ stdout b := by
  simp [stdout]

theorem handle_send_eq (state : state_t) (emsg : ErlMessage) (w : World) :
    handle_send state emsg w =
      { w with next := w.next + 3, trace := w.trace ++ send_calls state.fd emsg w.next } := by
  cases hv : emsg.msg.term?.bind ping_value with
  | some V =>
    cases hm : emsg.msg with
    | NULL => simp [hm, ETERM_ptr.term?] at hv
    | ref i t =>
      simp [hm, ETERM_ptr.term?] at hv
      rw [ping_value_eq_some] at hv
      subst hv
      rw [handle_send_ping state emsg w i V hm]
      simp [send_calls, hm, ETERM_ptr.term?, ping_value]
  | none =>
    rw [handle_send_other state emsg w]
    · simp [send_calls, hv]
    · intro i t hm
      simpa [hm, ETERM_ptr.term?] using hv

theorem dispatch_eq (state : state_t) (emsg : ErlMessage) (w : World) :
    dispatch state emsg w =
      { w with next := w.next + (if is_send_type emsg.type then 3 else 0),
               trace := w.trace ++ dispatch_calls state.fd emsg w.next } := by
  by_cases h : is_send_type emsg.type = true
  · have h2 := h
    simp only [is_send_type] at h2
    simp [dispatch, dispatch_calls, h, h2, handle_send_eq]
  · have h2 := h
    simp only [is_send_type] at h2
    simp [dispatch, dispatch_calls, h, h2]

theorem handle_emsg_eq (state : state_t) (emsg : ErlMessage) (w : World) :
    handle_emsg state emsg w =
      { w with next := w.next + (if is_send_type emsg.type then 3 else 0),
               trace := w.trace ++ dispatch_calls state.fd emsg w.next ++
                 [.erl_free_compound emsg.msg, .erl_free_compound emsg.to_,
                  .erl_free_compound emsg.from_] } := by
  simp [handle_emsg, dispatch_eq, erl_free_compound, World.log]

/-- C1: for a message event (`ERL_SEND` or `ERL_REG_SEND`) whose payload is `{ping, V}`, for
every term `V`, `handle_send` (and `handle_emsg` around it) calls `erl_send` exactly once: on
`state->fd`, to the pointer `emsg->from`, with the term `{pong, V}` carrying the same `V`. -/
theorem C1_ping_answered_by_one_pong (state : state_t) (emsg : ErlMessage) (w : World)
    (i : Nat) (V : ETERM)
    (htype : emsg.type = ERL_SEND ∨ emsg.type = ERL_REG_SEND)
    (hmsg : emsg.msg = .ref i (.tuple [.atom "ping", V])) :
    sends (handle_send state emsg w).trace =
        sends w.trace ++
          [.erl_send state.fd emsg.from_ (.ref (w.next + 2) (.tuple [.atom "pong", V]))]
    ∧ sends (handle_emsg state emsg w).trace =
        sends w.trace ++
          [.erl_send state.fd emsg.from_ (.ref (w.next + 2) (.tuple [.atom "pong", V]))] := by
  have ht : is_send_type emsg.type = true := by
    rcases htype with h | h <;> simp [is_send_type, h]
  constructor
  · rw [handle_send_ping state emsg w i V hmsg]
    simp [sends_append, ping_calls]
    simp [sends, Call.is_send]
  · rw [handle_emsg_eq]
    simp [sends_append, dispatch_calls, ht, send_calls, hmsg, ETERM_ptr.term?, ping_value,
      ping_calls]
    simp [sends, Call.is_send]

/-- C1, at the message `{ping, 42}`. -/
theorem C1_ping_answered_by_one_pong_witness :
    (sample_ping.type = ERL_SEND ∨ sample_ping.type = ERL_REG_SEND)
    ∧ sample_ping.msg = .ref 0 (.tuple [.atom "ping", .integer 42])
    ∧ sends (handle_send ⟨3⟩ sample_ping sample_world).trace =
        sends sample_world.trace ++
          [.erl_send 3 sample_ping.from_ (.ref (sample_world.next + 2)
            (.tuple [.atom "pong", .integer 42]))]
    ∧ sends (handle_emsg ⟨3⟩ sample_ping sample_world).trace =
        sends sample_world.trace ++
          [.erl_send 3 sample_ping.from_ (.ref (sample_world.next + 2)
            (.tuple [.atom "pong", .integer 42]))] :=
  ⟨Or.inr rfl, rfl,
    C1_ping_answered_by_one_pong ⟨3⟩ sample_ping sample_world 0 (.integer 42) (Or.inr rfl) rfl⟩

/-- C2: for a message event whose payload is not a two-element tuple with first element the
atom `ping`, `handle_send` (and `handle_emsg` around it) makes no `erl_send` call, although
`err_term` has built the term `{error, unknown_call}`. -/
theorem C2_other_payload_not_answered (state : state_t) (emsg : ErlMessage) (w : World)
    (hmsg : ¬ ∃ i V, emsg.msg = .ref i (.tuple [.atom "ping", V])) :
    sends (handle_send state emsg w).trace = sends w.trace
    ∧ sends (handle_emsg state emsg w).trace = sends w.trace
    ∧ Call.erl_format "\x7berror, ~w\x7d"
        (.ref (w.next + 2) (.tuple [.atom "error", .atom "unknown_call"]))
        ∈ (handle_send state emsg w).trace := by
  have hv : emsg.msg.term?.bind ping_value = none := by
    cases hm : emsg.msg with
    | NULL => simp [ETERM_ptr.term?]
    | ref i t =>
      cases hp : ping_value t with
      | none => simp [ETERM_ptr.term?, hp]
      | some V =>
        rw [ping_value_eq_some] at hp
        exact absurd ⟨i, V, by rw [hm, hp]⟩ hmsg
  have hs : sends (send_calls state.fd emsg w.next) = [] := by
    simp [send_calls, hv, other_calls, sends, Call.is_send]
  refine ⟨?_, ?_, ?_⟩
  · rw [handle_send_eq]
    simp [sends_append, hs]
  · rw [handle_emsg_eq]
    by_cases ht : is_send_type emsg.type = true
    · simp [sends_append, dispatch_calls, ht, hs]
      simp [sends, Call.is_send]
    · simp [sends_append, dispatch_calls, ht]
      simp [sends, Call.is_send]
  · rw [handle_send_eq]
    simp [send_calls, hv, other_calls]

/-- C2, at the message `{pong, 1}`. -/
theorem C2_other_payload_not_answered_witness :
    (¬ ∃ i V, sample_pong.msg = .ref i (.tuple [.atom "ping", V]))
    ∧ sends (handle_send ⟨3⟩ sample_pong sample_world).trace = sends sample_world.trace
    ∧ sends (handle_emsg ⟨3⟩ sample_pong sample_world).trace = sends sample_world.trace
    ∧ Call.erl_format "\x7berror, ~w\x7d"
        (.ref (sample_world.next + 2) (.tuple [.atom "error", .atom "unknown_call"]))
        ∈ (handle_send ⟨3⟩ sample_pong sample_world).trace :=
  ⟨by simp [sample_pong],
    C2_other_payload_not_answered ⟨3⟩ sample_pong sample_world (by simp [sample_pong])⟩


theorem writes_send_calls (fd : Int) (emsg : ErlMessage) (n : Nat) :
    writes (send_calls fd emsg n) =
      match emsg.msg.term?.bind ping_value with
      | some V => [{ fd := fd, to_ := emsg.from_.term?, term := some (.tuple [.atom "pong", V]) }]
      | none => [] := by
  cases hv : emsg.msg.term?.bind ping_value <;>
    simp [send_calls, hv, ping_calls, other_calls, writes, Call.write?]

@[simp]
theorem deliver_term (t : Option ETERM) (w : World) : (deliver t w).1.term? = t := by
  cases t <;> simp [deliver, World.fresh]

@[simp]
theorem deliver_trace (t : Option ETERM) (w : World) :
    (deliver t w).2.trace = w.trace := by
  cases t <;> simp [deliver, World.fresh]

theorem writes_dispatch_calls (fd : Int) (emsg : ErlMessage) (n : Nat) :
    writes (dispatch_calls fd emsg n) =
      reply_to fd (.msg emsg.type emsg.msg.term? emsg.to_.term? emsg.from_.term?) := by
  have ht : is_send_type emsg.type = true ↔ (emsg.type = ERL_SEND ∨ emsg.type = ERL_REG_SEND) := by
    simp [is_send_type, or_comm]
  by_cases h : is_send_type emsg.type = true
  · have h2 := ht.mp h
    cases hm : emsg.msg.term? with
    | none => simp [dispatch_calls, h, writes_send_calls, hm, reply_to]
    | some p =>
      cases hp : ping_value p <;>
        simp [dispatch_calls, h, writes_send_calls, hm, reply_to, h2, hp]
  · have h2 : ¬ (emsg.type = ERL_SEND ∨ emsg.type = ERL_REG_SEND) := fun e => h (ht.mpr e)
    cases hm : emsg.msg.term? <;> simp [dispatch_calls, h, reply_to, h2, writes]

theorem loop_body_msg (state : state_t) (emsg : ErlMessage) (type : Int)
    (m t f : Option ETERM) (w : World) :
    ∃ emsg1 w1, erl_xreceive_msg state.fd (.msg type m t f) emsg w = (ERL_MSG, emsg1, w1)
      ∧ loop_body state emsg (.msg type m t f) w = (true, emsg1, handle_emsg state emsg1 w1)
      ∧ emsg1.type = type ∧ emsg1.msg.term? = m ∧ emsg1.to_.term? = t
      ∧ emsg1.from_.term? = f
      ∧ w1.trace = w.trace ++
          [.erl_xreceive_msg state.fd ERL_MSG [emsg1.msg, emsg1.to_, emsg1.from_]] := by
  have hrc : (ERL_MSG == ERL_TICK) = false := by decide
  have hrc2 : (ERL_MSG == ERL_ERROR) = false := by decide
  refine ⟨(erl_xreceive_msg state.fd (.msg type m t f) emsg w).2.1,
    (erl_xreceive_msg state.fd (.msg type m t f) emsg w).2.2, rfl, ?_, rfl, ?_, ?_, ?_, ?_⟩
  · have h1 : (erl_xreceive_msg state.fd (.msg type m t f) emsg w).1 = ERL_MSG := rfl
    simp only [loop_body, h1, hrc, hrc2]
    simp
  · simp [erl_xreceive_msg]
  · simp [erl_xreceive_msg]
  · simp [erl_xreceive_msg]
  · simp [erl_xreceive_msg, World.log]

theorem loop_body_writes (state : state_t) (emsg : ErlMessage) (r : Received) (w : World)
    (h : r.is_error = false) :
    (loop_body state emsg r w).1 = true
    ∧ writes (loop_body state emsg r w).2.2.trace = writes w.trace ++ reply_to state.fd r := by
  cases r with
  | tick =>
    simp [loop_body, erl_xreceive_msg, ERL_TICK, World.log, writes_append, reply_to]
    simp [writes, Call.write?]
  | error => simp [Received.is_error] at h
  | msg type m t f =>
    obtain ⟨emsg1, w1, -, hb, h1, h2, h3, h4, h5⟩ := loop_body_msg state emsg type m t f w
    rw [hb]
    refine ⟨rfl, ?_⟩
    simp only [handle_emsg_eq, h5, writes_append, writes_dispatch_calls, h1, h2, h3, h4]
    simp [writes, Call.write?]

theorem receive_loop_stopped (state : state_t) (emsg : ErlMessage) (inbox : List Received)
    (w : World) : receive_loop state false emsg inbox w = (false, emsg, inbox, w) := by
  cases inbox <;> simp [receive_loop]

theorem receive_loop_cons (state : state_t) (emsg : ErlMessage) (r : Received)
    (inbox : List Received) (w : World) :
    receive_loop state true emsg (r :: inbox) w =
      receive_loop state (loop_body state emsg r w).1 (loop_body state emsg r w).2.1 inbox
        (loop_body state emsg r w).2.2 := by
  simp [receive_loop]

/-- C5: for every finite sequence of inbound events, whatever the buffer `emsg` holds from
earlier events and whatever the individual `erl_send` calls return, the writes the receive
loop adds are exactly, in order, one `{pong, V}` to the sender for each `{ping, V}` message
before the first failed receive. -/
theorem C5_writes_follow_events (state : state_t) (emsg : ErlMessage)
    (inbox : List Received) (w : World) :
    writes (receive_loop state true emsg inbox w).2.2.2.trace =
      writes w.trace ++ expected_writes state.fd inbox := by
  induction inbox generalizing emsg w with
  | nil => simp [receive_loop, expected_writes]
  | cons r rest ih =>
    rw [receive_loop_cons]
    cases hr : r.is_error with
    | true =>
      cases r <;> simp [Received.is_error] at hr
      simp [loop_body, erl_xreceive_msg, ERL_TICK, ERL_ERROR, receive_loop_stopped,
        expected_writes, World.log, writes_append]
      simp [writes, Call.write?]
    | false =>
      obtain ⟨h1, h2⟩ := loop_body_writes state emsg r w hr
      rw [h1, ih, h2]
      cases r <;> simp [Received.is_error] at hr <;> simp [expected_writes]


theorem receive_loop_no_error (state : state_t) (pre : List Received)
    (hpre : ∀ r ∈ pre, r.is_error = false) (emsg : ErlMessage) (w : World) :
    ∃ e1 w1, receive_loop state true emsg pre w = (true, e1, [], w1)
      ∧ ∀ suffix, receive_loop state true emsg (pre ++ suffix) w =
          receive_loop state true e1 suffix w1 := by
  induction pre generalizing emsg w with
  | nil => exact ⟨emsg, w, by simp [receive_loop], fun _ => rfl⟩
  | cons r pre ih =>
    have hr : r.is_error = false := hpre r (by simp)
    have h1 := (loop_body_writes state emsg r w hr).1
    obtain ⟨e1, w1, h2, h3⟩ := ih (fun x hx => hpre x (by simp [hx]))
      (loop_body state emsg r w).2.1 (loop_body state emsg r w).2.2
    refine ⟨e1, w1, ?_, ?_⟩
    · rw [receive_loop_cons, h1, h2]
    · intro suffix
      rw [List.cons_append, receive_loop_cons, h1, h3]

theorem main_started (prog sname hostname cookie tname : String) (inbox : List Received)
    (w : World) (h1 : sname ≠ "-h") (h2 : sname ≠ "--help") (hx : w.xinit_rc ≠ -1)
    (hc : 0 ≤ w.connect_rc) :
    main [prog, sname, hostname, cookie, tname] inbox w =
      after_loop (receive_loop ⟨w.connect_rc⟩ true emsg_unset inbox
        { w with trace := w.trace ++ startup_calls sname hostname cookie tname }) := by
  have hc2 : ¬ w.connect_rc < 0 := by omega
  simp only [main]
  simp [h1, h2, erl_init, printf, fflush_stdout, erl_connect_xinit, erl_connect, World.log,
    hx, hc2, after_loop, startup_calls]

/-- C3: when, after events `pre` none of which is a failure, `erl_xreceive_msg` returns
`ERL_ERROR`, the loop ends there: the world is the one reached after `pre` plus the one failed
receive call (so nothing is received, dispatched or written afterwards), the later events
`rest` are left untouched, and `main` returns 0.  A loop whose `looping` is false does
nothing more. -/
theorem C3_error_ends_the_loop (prog sname hostname cookie tname : String)
    (pre rest : List Received) (w : World)
    (h1 : sname ≠ "-h") (h2 : sname ≠ "--help") (hx : w.xinit_rc ≠ -1) (hc : 0 ≤ w.connect_rc)
    (hpre : ∀ r ∈ pre, r.is_error = false) :
    (∃ w0, main [prog, sname, hostname, cookie, tname] pre w = (.waiting, [], w0)
      ∧ main [prog, sname, hostname, cookie, tname] (pre ++ .error :: rest) w =
          (.returned 0, rest, w0.log (.erl_xreceive_msg w.connect_rc ERL_ERROR [])))
    ∧ ∀ (state : state_t) (emsg : ErlMessage) (inbox : List Received) (w1 : World),
        receive_loop state false emsg inbox w1 = (false, emsg, inbox, w1) := by
  refine ⟨?_, receive_loop_stopped⟩
  obtain ⟨e1, w1, h3, h4⟩ := receive_loop_no_error ⟨w.connect_rc⟩ pre hpre emsg_unset
    { w with trace := w.trace ++ startup_calls sname hostname cookie tname }
  refine ⟨w1, ?_, ?_⟩
  · rw [main_started _ _ _ _ _ _ _ h1 h2 hx hc, h3]
    rfl
  · rw [main_started _ _ _ _ _ _ _ h1 h2 hx hc, h4, receive_loop_cons]
    have hb : loop_body ⟨w.connect_rc⟩ e1 .error w1 =
        (false, e1, w1.log (.erl_xreceive_msg w.connect_rc ERL_ERROR [])) := by
      simp [loop_body, erl_xreceive_msg, ERL_ERROR, ERL_TICK]
    rw [hb, receive_loop_stopped]
    rfl

/-- C3, at a run that receives a heartbeat, then a failure, then a `{ping, 42}` that is never
looked at. -/
theorem C3_error_ends_the_loop_witness :
    "a" ≠ "-h" ∧ "a" ≠ "--help" ∧ sample_world.xinit_rc ≠ -1 ∧ 0 ≤ sample_world.connect_rc
    ∧ (∀ r ∈ [Received.tick], r.is_error = false)
    ∧ ((∃ w0, main ["example_client", "a", "host", "secret", "b"] [Received.tick] sample_world =
            (.waiting, [], w0)
          ∧ main ["example_client", "a", "host", "secret", "b"]
              ([Received.tick] ++ .error ::
                [.msg ERL_SEND (some (.tuple [.atom "ping", .integer 42])) none none])
              sample_world =
            (.returned 0, [.msg ERL_SEND (some (.tuple [.atom "ping", .integer 42])) none none],
              w0.log (.erl_xreceive_msg sample_world.connect_rc ERL_ERROR [])))
      ∧ ∀ (state : state_t) (emsg : ErlMessage) (inbox : List Received) (w1 : World),
          receive_loop state false emsg inbox w1 = (false, emsg, inbox, w1)) :=
  ⟨by decide, by decide, by decide, by decide, by simp [Received.is_error],
    C3_error_ends_the_loop "example_client" "a" "host" "secret" "b" [Received.tick]
      [.msg ERL_SEND (some (.tuple [.atom "ping", .integer 42])) none none] sample_world
      (by decide) (by decide) (by decide) (by decide) (by simp [Received.is_error])⟩

/-- C4: a heartbeat and an event of type `ERL_EXIT`, `ERL_LINK` or `ERL_UNLINK` cause no
`erl_send` call and leave `looping` true: the loop goes on to receive the next event. -/
theorem C4_quiet_events (state : state_t) (emsg : ErlMessage) (r : Received)
    (rest : List Received) (w : World)
    (h : r = .tick ∨ ∃ m t f,
      r = .msg ERL_EXIT m t f ∨ r = .msg ERL_LINK m t f ∨ r = .msg ERL_UNLINK m t f) :
    (loop_body state emsg r w).1 = true
    ∧ sends (loop_body state emsg r w).2.2.trace = sends w.trace
    ∧ receive_loop state true emsg (r :: rest) w =
        receive_loop state true (loop_body state emsg r w).2.1 rest
          (loop_body state emsg r w).2.2 := by
  have hloop : (loop_body state emsg r w).1 = true := by
    have hr : r.is_error = false := by
      rcases h with rfl | ⟨m, t, f, rfl | rfl | rfl⟩ <;> rfl
    exact (loop_body_writes state emsg r w hr).1
  refine ⟨hloop, ?_, ?_⟩
  · rcases h with rfl | ⟨m, t, f, h | h | h⟩
    · simp [loop_body, erl_xreceive_msg, ERL_TICK, World.log, sends_append]
      simp [sends, Call.is_send]
    all_goals
      subst h
      obtain ⟨emsg1, w1, -, hb, ht, -, -, -, h5⟩ := loop_body_msg state emsg _ m t f w
      rw [hb]
      have hty : is_send_type emsg1.type = false := by rw [ht]; decide
      simp only [handle_emsg_eq, h5, sends_append, dispatch_calls, hty]
      simp [sends, Call.is_send]
  · rw [receive_loop_cons, hloop]

/-- C4, at a heartbeat. -/
theorem C4_quiet_events_witness :
    (Received.tick = .tick ∨ ∃ m t f,
      Received.tick = .msg ERL_EXIT m t f ∨ Received.tick = .msg ERL_LINK m t f
        ∨ Received.tick = .msg ERL_UNLINK m t f)
    ∧ (loop_body ⟨3⟩ emsg_unset .tick sample_world).1 = true
    ∧ sends (loop_body ⟨3⟩ emsg_unset .tick sample_world).2.2.trace = sends sample_world.trace
    ∧ receive_loop ⟨3⟩ true emsg_unset (.tick :: [.error]) sample_world =
        receive_loop ⟨3⟩ true (loop_body ⟨3⟩ emsg_unset .tick sample_world).2.1 [.error]
          (loop_body ⟨3⟩ emsg_unset .tick sample_world).2.2 :=
  ⟨Or.inl rfl, C4_quiet_events ⟨3⟩ emsg_unset .tick [.error] sample_world (Or.inl rfl)⟩


theorem release_count_append (id : Nat) (a b : List Call) :
    release_count id (a ++ b) = release_count id a + release_count id b := by
  simp [release_count]

theorem release_count_dispatch_calls (fd : Int) (emsg : ErlMessage) (n id : Nat)
    (h : id < n) : release_count id (dispatch_calls fd emsg n) = 0 := by
  have h0 : (n == id) = false := by simp; omega
  have h1 : (n + 1 == id) = false := by simp; omega
  have h2 : (n + 2 == id) = false := by simp; omega
  by_cases ht : is_send_type emsg.type = true
  · cases hv : emsg.msg.term?.bind ping_value <;>
      simp [dispatch_calls, ht, send_calls, hv, ping_calls, other_calls, release_count,
        Call.releases, ETERM_ptr.is_ref, h0, h1, h2]
  · simp [dispatch_calls, ht, release_count]

theorem release_count_owned (emsg : ErlMessage) (id : Nat) (hd : emsg.owned.Nodup)
    (hid : id ∈ emsg.owned) :
    release_count id [.erl_free_compound emsg.msg, .erl_free_compound emsg.to_,
      .erl_free_compound emsg.from_] = 1 := by
  obtain ⟨type, m, t, f⟩ := emsg
  cases m <;> cases t <;> cases f <;>
    simp [ErlMessage.owned, ETERM_ptr.ids] at hd hid <;>
    simp [release_count, Call.releases, ETERM_ptr.is_ref, List.filter_cons] <;>
    split_ifs <;> simp_all <;> omega

/-- C6: whatever the type of the event and whichever branch handles it, `handle_emsg` ends
with the three calls `erl_free_compound(emsg->msg)`, `erl_free_compound(emsg->to)`,
`erl_free_compound(emsg->from)`, made after the handling (the `switch`, including a
`handle_send` that returns early), and the handling itself releases none of the references
the event owns: each of them is released exactly once. -/
theorem C6_event_terms_released_once (state : state_t) (emsg : ErlMessage) (w : World)
    (hdistinct : emsg.owned.Nodup) (hold : ∀ id ∈ emsg.owned, id < w.next) :
    ∃ handling, (dispatch state emsg w).trace = w.trace ++ handling
      ∧ (handle_emsg state emsg w).trace = w.trace ++ handling ++
          [.erl_free_compound emsg.msg, .erl_free_compound emsg.to_,
           .erl_free_compound emsg.from_]
      ∧ ∀ id ∈ emsg.owned, release_count id handling = 0
          ∧ release_count id (handling ++
              [.erl_free_compound emsg.msg, .erl_free_compound emsg.to_,
               .erl_free_compound emsg.from_]) = 1 := by
  refine ⟨dispatch_calls state.fd emsg w.next, ?_, ?_, ?_⟩
  · rw [dispatch_eq]
  · rw [handle_emsg_eq]
  · intro id hid
    have h0 := release_count_dispatch_calls state.fd emsg w.next id (hold id hid)
    refine ⟨h0, ?_⟩
    rw [release_count_append, h0, release_count_owned emsg id hdistinct hid]


/-- C6, at the message `{ping, 42}` held through the references 0, 1 and 2. -/
theorem C6_event_terms_released_once_witness :
    sample_ping.owned.Nodup ∧ (∀ id ∈ sample_ping.owned, id < sample_world.next)
    ∧ ∃ handling, (dispatch ⟨3⟩ sample_ping sample_world).trace = sample_world.trace ++ handling
      ∧ (handle_emsg ⟨3⟩ sample_ping sample_world).trace = sample_world.trace ++ handling ++
          [.erl_free_compound sample_ping.msg, .erl_free_compound sample_ping.to_,
           .erl_free_compound sample_ping.from_]
      ∧ ∀ id ∈ sample_ping.owned, release_count id handling = 0
          ∧ release_count id (handling ++
              [.erl_free_compound sample_ping.msg, .erl_free_compound sample_ping.to_,
               .erl_free_compound sample_ping.from_]) = 1 :=
  ⟨by decide, by decide,
    C6_event_terms_released_once ⟨3⟩ sample_ping sample_world (by decide) (by decide)⟩

theorem allocation_counter_append (a b : List Call) :
    allocation_counter (a ++ b) = allocation_counter a + allocation_counter b := by
  simp [allocation_counter]

theorem allocation_counter_dispatch_calls (fd : Int) (emsg : ErlMessage) (n : Nat) :
    allocation_counter (dispatch_calls fd emsg n) =
      left_over (.msg emsg.type emsg.msg.term? emsg.to_.term? emsg.from_.term?) := by
  by_cases ht : is_send_type emsg.type = true
  · cases hv : emsg.msg.term?.bind ping_value <;>
      simp [dispatch_calls, ht, send_calls, hv, ping_calls, other_calls, allocation_counter,
        Call.delta, ETERM_ptr.weight, left_over]
  · simp [dispatch_calls, ht, allocation_counter, left_over]

/-- The allocation counter after one iteration of the loop: back at its value before the
event, except after a message with an unrecognized payload, where it is three higher. -/
theorem counter_after_event (state : state_t) (emsg : ErlMessage) (r : Received) (w : World) :
    allocation_counter (loop_body state emsg r w).2.2.trace =
      allocation_counter w.trace + left_over r := by
  cases r with
  | tick =>
    simp [loop_body, erl_xreceive_msg, ERL_TICK, World.log, allocation_counter_append, left_over]
    simp [allocation_counter, Call.delta]
  | error =>
    simp [loop_body, erl_xreceive_msg, ERL_TICK, ERL_ERROR, World.log,
      allocation_counter_append, left_over]
    simp [allocation_counter, Call.delta]
  | msg type m t f =>
    obtain ⟨emsg1, w1, -, hb, h1, h2, h3, h4, h5⟩ := loop_body_msg state emsg type m t f w
    rw [hb]
    simp only [handle_emsg_eq, h5, allocation_counter_append, allocation_counter_dispatch_calls,
      h1, h2, h3, h4]
    have hr : allocation_counter
        [.erl_xreceive_msg state.fd ERL_MSG [emsg1.msg, emsg1.to_, emsg1.from_]] =
        emsg1.msg.weight + emsg1.to_.weight + emsg1.from_.weight := by
      simp [allocation_counter, Call.delta]; ring
    have hf : allocation_counter [.erl_free_compound emsg1.msg, .erl_free_compound emsg1.to_,
        .erl_free_compound emsg1.from_] =
        - emsg1.msg.weight - emsg1.to_.weight - emsg1.from_.weight := by
      simp [allocation_counter, Call.delta]; ring
    rw [hr, hf]
    ring

/-- C7 (as the program behaves): after the event `{pong, 1}` the allocation counter is three
above its value before the event, because `handle_send` returns without releasing the pattern,
the atom `unknown_call` and the error reply; after the event `{ping, 42}` it is back at its
value before the event. -/
theorem C7_unrecognized_payload_leaks :
    allocation_counter (loop_body ⟨3⟩ emsg_unset
        (.msg ERL_REG_SEND (some (.tuple [.atom "pong", .integer 1])) (some (.atom "srv"))
          (some (.pid "b@host" 1 0 0)))
        sample_world).2.2.trace
      = allocation_counter sample_world.trace + 3
    ∧ allocation_counter (loop_body ⟨3⟩ emsg_unset
        (.msg ERL_REG_SEND (some (.tuple [.atom "ping", .integer 42])) (some (.atom "srv"))
          (some (.pid "b@host" 1 0 0)))
        sample_world).2.2.trace
      = allocation_counter sample_world.trace :=
  ⟨rfl, rfl⟩


theorem stdout_dispatch_calls (fd : Int) (emsg : ErlMessage) (n : Nat) :
    stdout (dispatch_calls fd emsg n) = [] := by
  by_cases ht : is_send_type emsg.type = true
  · cases hv : emsg.msg.term?.bind ping_value <;>
      simp [dispatch_calls, ht, send_calls, hv, ping_calls, other_calls, stdout, Call.text?]
  · simp [dispatch_calls, ht, stdout]

theorem loop_body_trace (state : state_t) (emsg : ErlMessage) (r : Received) (w : World) :
    ∃ calls, (loop_body state emsg r w).2.2.trace = w.trace ++ calls ∧ stdout calls = [] := by
  cases r with
  | tick =>
    exact ⟨[.erl_xreceive_msg state.fd ERL_TICK []],
      by simp [loop_body, erl_xreceive_msg, ERL_TICK, World.log], by simp [stdout, Call.text?]⟩
  | error =>
    exact ⟨[.erl_xreceive_msg state.fd ERL_ERROR []],
      by simp [loop_body, erl_xreceive_msg, ERL_TICK, ERL_ERROR, World.log],
      by simp [stdout, Call.text?]⟩
  | msg type m t f =>
    obtain ⟨emsg1, w1, -, hb, -, -, -, -, h5⟩ := loop_body_msg state emsg type m t f w
    refine ⟨[.erl_xreceive_msg state.fd ERL_MSG [emsg1.msg, emsg1.to_, emsg1.from_]] ++
      dispatch_calls state.fd emsg1 w1.next ++
      [.erl_free_compound emsg1.msg, .erl_free_compound emsg1.to_,
       .erl_free_compound emsg1.from_], ?_, ?_⟩
    · rw [hb]
      simp [handle_emsg_eq, h5]
    · simp only [stdout_append, stdout_dispatch_calls]
      simp [stdout, Call.text?]

theorem receive_loop_trace (state : state_t) (looping : Bool) (emsg : ErlMessage)
    (inbox : List Received) (w : World) :
    ∃ calls, (receive_loop state looping emsg inbox w).2.2.2.trace = w.trace ++ calls
      ∧ stdout calls = [] := by
  induction inbox generalizing looping emsg w with
  | nil => cases looping <;> exact ⟨[], by simp [receive_loop], rfl⟩
  | cons r rest ih =>
    cases looping with
    | false => exact ⟨[], by simp [receive_loop], rfl⟩
    | true =>
      obtain ⟨c1, h1, h2⟩ := loop_body_trace state emsg r w
      obtain ⟨c2, h3, h4⟩ := ih (loop_body state emsg r w).1 (loop_body state emsg r w).2.1
        (loop_body state emsg r w).2.2
      refine ⟨c1 ++ c2, ?_, ?_⟩
      · rw [receive_loop_cons, h3, h1, List.append_assoc]
      · rw [stdout_append, h2, h4]
        rfl

theorem after_loop_world (x : Bool × ErlMessage × List Received × World) :
    (after_loop x).2.2 = x.2.2.2 := by
  obtain ⟨b, e, r, w⟩ := x
  cases b <;> rfl

theorem main_started_trace (prog sname hostname cookie tname : String)
    (inbox : List Received) (w : World)
    (h1 : sname ≠ "-h") (h2 : sname ≠ "--help") (hx : w.xinit_rc ≠ -1) (hc : 0 ≤ w.connect_rc) :
    ∃ loop_calls,
      (main [prog, sname, hostname, cookie, tname] inbox w).2.2.trace =
          w.trace ++ startup_calls sname hostname cookie tname ++ loop_calls
      ∧ stdout loop_calls = []
      ∧ (receive_loop ⟨w.connect_rc⟩ true emsg_unset inbox
          { w with trace := w.trace ++ startup_calls sname hostname cookie tname }).2.2.2.trace
          = (w.trace ++ startup_calls sname hostname cookie tname) ++ loop_calls := by
  obtain ⟨calls, hcalls, hout⟩ := receive_loop_trace ⟨w.connect_rc⟩ true emsg_unset inbox
    { w with trace := w.trace ++ startup_calls sname hostname cookie tname }
  refine ⟨calls, ?_, hout, hcalls⟩
  rw [main_started _ _ _ _ _ _ _ h1 h2 hx hc, after_loop_world, hcalls]

/-- C8: with four user arguments, the first neither `-h` nor `--help`, and registration and
connect succeeding, standard output receives exactly the three lines `initialising S@H`,
`connecting to T@H`, `S@H ready`, in this order; the calls of `main` are the nine startup
calls listed (the ready line right after the successful `erl_connect`), followed by the calls
of the receive loop, which print nothing. -/
theorem C8_startup_lines (prog sname hostname cookie tname : String)
    (inbox : List Received) (w : World)
    (h1 : sname ≠ "-h") (h2 : sname ≠ "--help") (hx : w.xinit_rc ≠ -1) (hc : 0 ≤ w.connect_rc) :
    stdout (main [prog, sname, hostname, cookie, tname] inbox w).2.2.trace =
        stdout w.trace ++
          [ "initialising " ++ (sname ++ "@" ++ hostname) ++ "\n",
            "connecting to " ++ (tname ++ "@" ++ hostname) ++ "\n",
            (sname ++ "@" ++ hostname) ++ " ready\n" ]
    ∧ ∃ loop_calls,
        (main [prog, sname, hostname, cookie, tname] inbox w).2.2.trace =
          w.trace ++
            [ .erl_init,
              .printf ("initialising " ++ (sname ++ "@" ++ hostname) ++ "\n"),
              .fflush_stdout,
              .erl_connect_xinit hostname sname (sname ++ "@" ++ hostname) cookie,
              .printf ("connecting to " ++ (tname ++ "@" ++ hostname) ++ "\n"),
              .fflush_stdout,
              .erl_connect (tname ++ "@" ++ hostname),
              .printf ((sname ++ "@" ++ hostname) ++ " ready\n"),
              .fflush_stdout ] ++ loop_calls
        ∧ stdout loop_calls = []
        ∧ (receive_loop ⟨w.connect_rc⟩ true emsg_unset inbox
            { w with trace := w.trace ++
                [ .erl_init,
                  .printf ("initialising " ++ (sname ++ "@" ++ hostname) ++ "\n"),
                  .fflush_stdout,
                  .erl_connect_xinit hostname sname (sname ++ "@" ++ hostname) cookie,
                  .printf ("connecting to " ++ (tname ++ "@" ++ hostname) ++ "\n"),
                  .fflush_stdout,
                  .erl_connect (tname ++ "@" ++ hostname),
                  .printf ((sname ++ "@" ++ hostname) ++ " ready\n"),
                  .fflush_stdout ] }).2.2.2.trace
            = (main [prog, sname, hostname, cookie, tname] inbox w).2.2.trace := by
  obtain ⟨calls, ht, hout, hcalls⟩ :=
    main_started_trace prog sname hostname cookie tname inbox w h1 h2 hx hc
  refine ⟨?_, calls, ?_, hout, ?_⟩
  · rw [ht, stdout_append, stdout_append, hout]
    simp [startup_calls, stdout, Call.text?]
  · rw [ht]
    rfl
  · rw [ht]
    exact hcalls

/-- C8, at the arguments `a host secret b`. -/
theorem C8_startup_lines_witness :
    "a" ≠ "-h" ∧ "a" ≠ "--help" ∧ sample_world.xinit_rc ≠ -1 ∧ 0 ≤ sample_world.connect_rc
    ∧ stdout (main ["example_client", "a", "host", "secret", "b"] [.error]
        sample_world).2.2.trace =
      ["initialising a@host\n", "connecting to b@host\n", "a@host ready\n"] :=
  ⟨by decide, by decide, by decide, by decide,
    (C8_startup_lines "example_client" "a" "host" "secret" "b" [.error] sample_world
      (by decide) (by decide) (by decide) (by decide)).1⟩


theorem main_quit (prog sname hostname cookie tname : String) (inbox : List Received)
    (w : World) (h1 : sname ≠ "-h") (h2 : sname ≠ "--help")
    (hfail : w.xinit_rc = -1 ∨ w.connect_rc < 0) :
    main [prog, sname, hostname, cookie, tname] inbox w =
      (.quit, inbox,
        { w with trace := w.trace ++
            if w.xinit_rc = -1 then
              [ .erl_init,
                .printf ("initialising " ++ (sname ++ "@" ++ hostname) ++ "\n"),
                .fflush_stdout,
                .erl_connect_xinit hostname sname (sname ++ "@" ++ hostname) cookie,
                .erl_err_quit "error erl_connect_init" ]
            else
              [ .erl_init,
                .printf ("initialising " ++ (sname ++ "@" ++ hostname) ++ "\n"),
                .fflush_stdout,
                .erl_connect_xinit hostname sname (sname ++ "@" ++ hostname) cookie,
                .printf ("connecting to " ++ (tname ++ "@" ++ hostname) ++ "\n"),
                .fflush_stdout,
                .erl_connect (tname ++ "@" ++ hostname),
                .erl_err_quit "error erl_connect" ] }) := by
  by_cases hx : w.xinit_rc = -1
  · simp only [main]
    simp [h1, h2, erl_init, printf, fflush_stdout, erl_connect_xinit, erl_err_quit, World.log, hx]
  · have hc : w.connect_rc < 0 := by
      rcases hfail with h | h
      · exact absurd h hx
      · exact h
    simp only [main]
    simp [h1, h2, erl_init, printf, fflush_stdout, erl_connect_xinit, erl_connect, erl_err_quit,
      World.log, hx, hc]

theorem initialising_not_usage (x : String) : "initialising " ++ x ++ "\n" ∉ usage_text := by
  have hh : ("initialising " ++ x ++ "\n").data.head? = some 'i' := by
    simp [String.data_append]
  intro hmem
  simp only [usage_text, List.mem_cons, List.mem_singleton, List.not_mem_nil, or_false] at hmem
  rcases hmem with h | h | h | h | h | h | h <;>
    · rw [h] at hh
      revert hh
      decide

theorem connecting_not_usage (x : String) : "connecting to " ++ x ++ "\n" ∉ usage_text := by
  have hh : ("connecting to " ++ x ++ "\n").data.head? = some 'c' := by
    simp [String.data_append]
  intro hmem
  simp only [usage_text, List.mem_cons, List.mem_singleton, List.not_mem_nil, or_false] at hmem
  rcases hmem with h | h | h | h | h | h | h <;>
    · rw [h] at hh
      revert hh
      decide

theorem ready_not_usage (x : String) : x ++ " ready\n" ∉ usage_text := by
  have hh : (x ++ " ready\n").data.reverse.get? 1 = some 'y' := by
    simp [String.data_append]
  intro hmem
  simp only [usage_text, List.mem_cons, List.mem_singleton, List.not_mem_nil, or_false] at hmem
  rcases hmem with h | h | h | h | h | h | h <;>
    · rw [h] at hh
      revert hh
      decide

/-- C10: if registration fails (`erl_connect_xinit` returns -1) or the connect fails
(`erl_connect` returns a negative number), the process ends in `erl_err_quit`: the calls made
are exactly the ones listed, so there is no ready line, no receive, no write and no second
attempt, nothing of the inbox is received, and after a failed registration `erl_connect` is
not called. -/
theorem C10_startup_failure_is_fatal (prog sname hostname cookie tname : String)
    (inbox : List Received) (w : World) (h1 : sname ≠ "-h") (h2 : sname ≠ "--help")
    (hfail : w.xinit_rc = -1 ∨ w.connect_rc < 0) :
    (main [prog, sname, hostname, cookie, tname] inbox w).1 = .quit
    ∧ (main [prog, sname, hostname, cookie, tname] inbox w).2.1 = inbox
    ∧ (main [prog, sname, hostname, cookie, tname] inbox w).2.2.trace =
        w.trace ++
          if w.xinit_rc = -1 then
            [ .erl_init,
              .printf ("initialising " ++ (sname ++ "@" ++ hostname) ++ "\n"),
              .fflush_stdout,
              .erl_connect_xinit hostname sname (sname ++ "@" ++ hostname) cookie,
              .erl_err_quit "error erl_connect_init" ]
          else
            [ .erl_init,
              .printf ("initialising " ++ (sname ++ "@" ++ hostname) ++ "\n"),
              .fflush_stdout,
              .erl_connect_xinit hostname sname (sname ++ "@" ++ hostname) cookie,
              .printf ("connecting to " ++ (tname ++ "@" ++ hostname) ++ "\n"),
              .fflush_stdout,
              .erl_connect (tname ++ "@" ++ hostname),
              .erl_err_quit "error erl_connect" ] := by
  rw [main_quit prog sname hostname cookie tname inbox w h1 h2 hfail]
  exact ⟨rfl, rfl, rfl⟩


/-- C10, at a refused connect: the run ends after `erl_connect`, the `{ping, 42}` waiting on
the connection is never received. -/
theorem C10_startup_failure_is_fatal_witness :
    "a" ≠ "-h" ∧ "a" ≠ "--help"
    ∧ (sample_world_refused.xinit_rc = -1 ∨ sample_world_refused.connect_rc < 0)
    ∧ (main ["example_client", "a", "host", "secret", "b"]
        [.msg ERL_SEND (some (.tuple [.atom "ping", .integer 42])) none none]
        sample_world_refused).1 = .quit
    ∧ (main ["example_client", "a", "host", "secret", "b"]
        [.msg ERL_SEND (some (.tuple [.atom "ping", .integer 42])) none none]
        sample_world_refused).2.1 =
          [.msg ERL_SEND (some (.tuple [.atom "ping", .integer 42])) none none]
    ∧ (main ["example_client", "a", "host", "secret", "b"]
        [.msg ERL_SEND (some (.tuple [.atom "ping", .integer 42])) none none]
        sample_world_refused).2.2.trace =
          [ .erl_init, .printf "initialising a@host\n", .fflush_stdout,
            .erl_connect_xinit "host" "a" "a@host" "secret",
            .printf "connecting to b@host\n", .fflush_stdout,
            .erl_connect "b@host", .erl_err_quit "error erl_connect" ] :=
  ⟨by decide, by decide, Or.inr (by decide),
    C10_startup_failure_is_fatal "example_client" "a" "host" "secret" "b"
      [.msg ERL_SEND (some (.tuple [.atom "ping", .integer 42])) none none]
      sample_world_refused (by decide) (by decide) (Or.inr (by decide))⟩

theorem usage_eq (w : World) :
    usage w = { w with trace := w.trace ++ usage_text.map Call.printf } := by
  simp [usage, printf, World.log, usage_text]

theorem main_usage (argv : List String) (inbox : List Received) (w : World)
    (h : argv.length ≠ 5 ∨ argv.getD 1 "" = "-h" ∨ argv.getD 1 "" = "--help") :
    main argv inbox w = (.returned 0, inbox, usage w) := by
  have hc : (argv.length != 5 || argv.getD 1 "" == "-h" || argv.getD 1 "" == "--help") = true := by
    simp only [Bool.or_eq_true, bne_iff_ne, beq_iff_eq, ne_eq]
    rcases h with h | h | h
    · exact Or.inl (Or.inl h)
    · exact Or.inl (Or.inr h)
    · exact Or.inr h
  simp only [main, hc, if_true]

theorem main_no_usage (prog sname hostname cookie tname : String) (inbox : List Received)
    (w : World) (h1 : sname ≠ "-h") (h2 : sname ≠ "--help") :
    ∃ calls, (main [prog, sname, hostname, cookie, tname] inbox w).2.2.trace =
        w.trace ++ [.erl_init,
          .printf ("initialising " ++ (sname ++ "@" ++ hostname) ++ "\n")] ++ calls
      ∧ ∀ line ∈ stdout ([.erl_init,
          .printf ("initialising " ++ (sname ++ "@" ++ hostname) ++ "\n")] ++ calls),
          line ∉ usage_text := by
  have i1 := initialising_not_usage (sname ++ "@" ++ hostname)
  have i2 := connecting_not_usage (tname ++ "@" ++ hostname)
  have i3 := ready_not_usage (sname ++ "@" ++ hostname)
  by_cases hfail : w.xinit_rc = -1 ∨ w.connect_rc < 0
  · rw [main_quit prog sname hostname cookie tname inbox w h1 h2 hfail]
    by_cases hx : w.xinit_rc = -1
    · refine ⟨[.fflush_stdout,
        .erl_connect_xinit hostname sname (sname ++ "@" ++ hostname) cookie,
        .erl_err_quit "error erl_connect_init"], by simp [hx], ?_⟩
      intro line hl
      simp [stdout, Call.text?] at hl
      subst hl
      exact i1
    · refine ⟨[.fflush_stdout,
        .erl_connect_xinit hostname sname (sname ++ "@" ++ hostname) cookie,
        .printf ("connecting to " ++ (tname ++ "@" ++ hostname) ++ "\n"),
        .fflush_stdout,
        .erl_connect (tname ++ "@" ++ hostname),
        .erl_err_quit "error erl_connect"], by simp [hx], ?_⟩
      intro line hl
      simp [stdout, Call.text?] at hl
      rcases hl with hl | hl <;> subst hl
      · exact i1
      · exact i2
  · have hx : w.xinit_rc ≠ -1 := fun e => hfail (Or.inl e)
    have hc : 0 ≤ w.connect_rc := by
      by_contra hn
      exact hfail (Or.inr (by omega))
    obtain ⟨loop_calls, htrace, hquiet, -⟩ :=
      main_started_trace prog sname hostname cookie tname inbox w h1 h2 hx hc
    refine ⟨[.fflush_stdout,
        .erl_connect_xinit hostname sname (sname ++ "@" ++ hostname) cookie,
        .printf ("connecting to " ++ (tname ++ "@" ++ hostname) ++ "\n"),
        .fflush_stdout,
        .erl_connect (tname ++ "@" ++ hostname),
        .printf ((sname ++ "@" ++ hostname) ++ " ready\n"),
        .fflush_stdout] ++ loop_calls, by rw [htrace]; simp [startup_calls], ?_⟩
    intro line hl
    rw [← List.append_assoc, stdout_append, hquiet] at hl
    simp [stdout, Call.text?] at hl
    rcases hl with hl | hl | hl <;> subst hl
    · exact i1
    · exact i2
    · exact i3

/-- C9: when the number of arguments is not four (`argc != 5`) or the first argument is `-h`
or `--help`, `main` makes the seven `printf` calls of the usage text and nothing else, and
returns 0 without receiving anything; with four arguments the first of which is neither, the
first calls are `erl_init` and the `initialising` line, and nothing `main` prints is a line of
the usage text. -/
theorem C9_usage_or_startup (argv : List String) (inbox : List Received) (w : World) :
    ((argv.length ≠ 5 ∨ argv.getD 1 "" = "-h" ∨ argv.getD 1 "" = "--help") →
      main argv inbox w =
        (.returned 0, inbox, { w with trace := w.trace ++ usage_text.map Call.printf }))
    ∧ (¬ (argv.length ≠ 5 ∨ argv.getD 1 "" = "-h" ∨ argv.getD 1 "" = "--help") →
      ∃ calls, (main argv inbox w).2.2.trace =
          w.trace ++ [.erl_init,
            .printf ("initialising " ++ (argv.getD 1 "" ++ "@" ++ argv.getD 2 "") ++ "\n")] ++ calls
        ∧ ∀ line ∈ stdout ([.erl_init,
            .printf ("initialising " ++ (argv.getD 1 "" ++ "@" ++ argv.getD 2 "") ++ "\n")]
              ++ calls),
            line ∉ usage_text) := by
  constructor
  · intro h
    rw [main_usage argv inbox w h, usage_eq]
  · intro h
    simp only [not_or, not_not] at h
    obtain ⟨hlen, h1, h2⟩ := h
    match argv, hlen with
    | [prog, sname, hostname, cookie, tname], _ =>
      simp only [List.getD_cons_succ, List.getD_cons_zero] at h1 h2 ⊢
      exact main_no_usage prog sname hostname cookie tname inbox w h1 h2

/-- C9, at `example_client --help` and at `example_client a host secret b`. -/
theorem C9_usage_or_startup_witness :
    main ["example_client", "--help"] [.tick] sample_world =
        (.returned 0, [.tick],
          { sample_world with trace := sample_world.trace ++ usage_text.map Call.printf })
    ∧ ∃ calls, (main ["example_client", "a", "host", "secret", "b"] [.error]
          sample_world).2.2.trace =
        sample_world.trace ++ [.erl_init, .printf "initialising a@host\n"] ++ calls
      ∧ ∀ line ∈ stdout ([.erl_init, .printf "initialising a@host\n"] ++ calls),
          line ∉ usage_text :=
  ⟨(C9_usage_or_startup ["example_client", "--help"] [.tick] sample_world).1
      (Or.inl (by decide)),
    (C9_usage_or_startup ["example_client", "a", "host", "secret", "b"] [.error]
      sample_world).2 (by decide)⟩

end ExampleClient
